import Mathlib

/-!
Verification of the FiatLux backend (PDF-notes processing pipeline).

This file gives a shallow embedding, in Lean, of the parts of the Python
source relevant to the specification claims: the storage layer's protected
raw/ folder check, the S3 and Google Drive write/delete paths, trigger mode
inference, the markdown fence stripping step, the agent pipelines
(summarize, create-project, existing-project, execute) with their
collaborators modelled as oracles, the job lifecycle in process_job, and
the job-status API handler.  Collaborator calls (storage, LLM prompting,
JSON decoding, regex extraction) are modelled as environment functions
returning Except values; a returned error models a raised Python exception
at that call site.  Object storage is modelled as an association list from
keys to contents.

All string primitives are implemented by structural recursion over
character lists so that concrete instances evaluate inside the kernel.
-/

set_option autoImplicit false

deriving instance DecidableEq for Except

namespace FiatLux

/-! ## Python string primitives -/

/-- Python s.strip(c): remove all leading and trailing occurrences of the
character c. -/
def pyStrip (c : Char) (s : String) : String :=
  let l := s.toList.dropWhile (fun x => x = c)
  String.mk ((l.reverse.dropWhile (fun x => x = c)).reverse)

/-- Python s.strip(): remove leading and trailing whitespace. -/
def pyTrim (s : String) : String :=
  let l := s.toList.dropWhile Char.isWhitespace
  String.mk ((l.reverse.dropWhile Char.isWhitespace).reverse)

/-- Python s.lower(). -/
def pyLower (s : String) : String :=
  String.mk (s.toList.map Char.toLower)

/-- Prefix test on strings (Python s.startswith(pre)). -/
def pyStartsWith (pre s : String) : Bool :=
  pre.toList.isPrefixOf s.toList

/-- Suffix test on strings (Python s.endswith(suf)). -/
def pyEndsWith (suf s : String) : Bool :=
  suf.toList.isSuffixOf s.toList

/-- Python s[:n] (character slice). -/
def pyTake (s : String) (n : Nat) : String :=
  String.mk (s.toList.take n)

/-- Python s[n:] (character slice). -/
def pyDrop (s : String) (n : Nat) : String :=
  String.mk (s.toList.drop n)

/-- Worker for pySplit: fuel-bounded scan cutting the character list at
every leftmost non-overlapping occurrence of sep. -/
def splitFuel (sep : List Char) : Nat → List Char → List Char → List (List Char)
  | 0, l, acc => [acc.reverse ++ l]
  | _ + 1, [], acc => [acc.reverse]
  | n + 1, x :: xs, acc =>
    if sep.isPrefixOf (x :: xs) then
      acc.reverse :: splitFuel sep n ((x :: xs).drop sep.length) []
    else
      splitFuel sep n xs (x :: acc)

/-- Python s.split(sep) for a non-empty separator sep. -/
def pySplit (sep : String) (s : String) : List String :=
  (splitFuel sep.toList (s.toList.length + 1) s.toList []).map String.mk

/-- Join a list of strings with a separator (Python sep.join(parts)). -/
def joinSep (sep : String) : List String → String
  | [] => ""
  | [x] => x
  | x :: xs => x ++ sep ++ joinSep sep xs

/-- Occurrence test (Python sub in s, for non-empty sub). -/
def pyContainsSub (sub s : String) : Bool :=
  1 < (pySplit sub s).length

/-- Python s.replace(sub, repl): replace every occurrence. -/
def pyReplaceAll (s sub repl : String) : String :=
  joinSep repl (pySplit sub s)

/-- Python s.replace(sub, repl, 1): replace the first occurrence of sub
(if any) by repl. -/
def replaceFirst (s sub repl : String) : String :=
  match pySplit sub s with
  | [] => s
  | [x] => x
  | x :: rest => x ++ repl ++ joinSep sub rest

/-- Python s.rsplit(".", 1)[0]: everything before the last dot, or the whole
string when there is no dot. -/
def rsplitBase (s : String) : String :=
  match pySplit "." s with
  | [] => s
  | [x] => x
  | parts => joinSep "." parts.dropLast

/-- Last element of a list of strings, with a default. -/
def lastD (d : String) : List String → String
  | [] => d
  | [x] => x
  | _ :: xs => lastD d xs

/-- Python path.rsplit(sep, 1)[-1]: the substring after the last separator,
or the whole string when the separator does not occur. -/
def rsplitLast (sep s : String) : String :=
  lastD s (pySplit sep s)

/-- First slash-separated segment of a path after stripping slashes. -/
def firstSegment (path : String) : String :=
  (pySplit "/" (pyStrip '/' path)).headD ""

/-! ## Storage layer (storage/base.py, storage/s3.py, storage/gdrive.py) -/

/-- Exceptions of the storage layer.  rawFolderWrite models
RawFolderWriteError from storage/base.py. -/
inductive StorageError where
  | rawFolderWrite (msg : String)
  | fileNotFound (msg : String)
  | other (msg : String)
deriving DecidableEq, Repr

/-- StorageFile from storage/base.py. -/
structure StorageFile where
  id : String
  name : String
  path : String
  mime_type : Option String := none
  size : Option Nat := none
deriving DecidableEq, Repr

/-- The protected folder name (StorageProvider.RAW_FOLDER). -/
def RAW_FOLDER : String := "raw"

/-- StorageProvider._assert_not_raw (storage/base.py lines 34-40):
strip slashes, lowercase, and reject when the result merely starts with
the characters of RAW_FOLDER.  The Python code raises
RawFolderWriteError; here that is an error value. -/
def assert_not_raw (path : String) : Except StorageError Unit :=
  let normalized := pyLower (pyStrip '/' path)
  if pyStartsWith RAW_FOLDER normalized then
    .error (.rawFolderWrite ("Cannot write to " ++ RAW_FOLDER ++ "/ folder. It is read-only."))
  else
    .ok ()

/-- Object storage state: keys mapped to contents (bytes modelled as
strings). -/
abbrev Store := List (String × String)

/-- Overwrite-or-insert a key (S3 put_object / Drive update-or-create
semantics). -/
def putAssoc (st : Store) (key body : String) : Store :=
  (key, body) :: st.filter (fun kv => kv.1 ≠ key)

/-- Look up a key in the store. -/
def getAssoc (st : Store) (key : String) : Option String :=
  (st.find? (fun kv => kv.1 = key)).map (fun kv => kv.2)

/-- S3Storage (storage/s3.py): bucket name and optional key pfx
(the constructor strips slashes from the given value; pfx renders the
Python attribute named like the English word for a leading key part). -/
structure S3Storage where
  bucket_name : String
  pfx : String := ""
deriving DecidableEq, Repr

/-- S3Storage._full_path: strip slashes from the path and prepend the pfx
when non-empty. -/
def S3Storage.full_path (s : S3Storage) (path : String) : String :=
  let p := pyStrip '/' path
  if s.pfx ≠ "" then s.pfx ++ "/" ++ p else p

/-- S3Storage.write_file (storage/s3.py lines 86-103): put_object at the
full key and return a StorageFile.  Note: the Python method performs NO
_assert_not_raw check and cannot fail with RawFolderWriteError. -/
def S3Storage.write_file (s : S3Storage) (st : Store) (path content mime_type : String) :
    Store × StorageFile :=
  let key := s.full_path path
  (putAssoc st key content,
   { id := key
     name := rsplitLast "/" path
     path := path
     mime_type := some mime_type
     size := some content.length })

/-- S3Storage.delete_file (storage/s3.py lines 105-108): delete_object by
key, unconditionally, returning True.  No raw/ check is performed. -/
def S3Storage.delete_file (_s : S3Storage) (st : Store) (file_id : String) : Store × Bool :=
  (st.filter (fun kv => kv.1 ≠ file_id), true)

/-- S3Storage.list_files (storage/s3.py lines 49-71): list the objects
whose key starts with the folder prefix (with a trailing slash added when
missing).  With the Delimiter argument only direct children appear in
Contents; entries whose name part is empty are skipped.  An empty result
is returned as an empty list, never as an error. -/
def S3Storage.list_files (s : S3Storage) (st : Store) (folder_path : String) :
    List StorageFile :=
  let pre := s.full_path folder_path
  let pre := if pyEndsWith "/" pre then pre else pre ++ "/"
  (st.filter (fun kv =>
      pyStartsWith pre kv.1 && !(pyDrop kv.1 pre.length).toList.contains '/')).filterMap
    (fun kv =>
      let name := rsplitLast "/" kv.1
      if name = "" then none
      else some
        { id := kv.1
          name := name
          path := if s.pfx ≠ "" then pyStrip '/' (pyDrop kv.1 s.pfx.length) else kv.1
          mime_type := none
          size := some kv.2.length })

/-- GDriveStorage.write_file (storage/gdrive.py lines 234-279): the method
first calls _assert_not_raw and only then performs the Drive API calls
(folder creation, existence query, update-or-create upload), which are
modelled by the oracle `rest`. -/
def GDriveStorage.write_file
    (rest : String → String → String → Except StorageError StorageFile)
    (path content mime_type : String) : Except StorageError StorageFile :=
  match assert_not_raw path with
  | .error e => .error e
  | .ok _ => rest path content mime_type

/-! ## Job data model (models/job.py) -/

/-- JobStatus from models/job.py. -/
inductive JobStatus where
  | pending
  | processing
  | completed
  | failed
deriving DecidableEq, Repr

/-- JobType from models/job.py. -/
inductive JobType where
  | summarize
  | create_project
  | existing_project
  | execute
deriving DecidableEq, Repr

/-- Project structure emitted by CreateProjectAgent._generate_structure
(the strict JSON object: name, type, language, framework, directories,
files). -/
structure ProjectStructure where
  name : String
  type : String
  language : String
  framework : Option String := none
  directories : List String := []
  files : List String := []
deriving DecidableEq, Repr

/-- The fixed default skeleton substituted by _generate_structure when the
JSON parse fails (create_project.py lines 148-154). -/
def defaultStructure : ProjectStructure :=
  { name := "new-project"
    type := "unknown"
    language := "python"
    directories := ["src"]
    files := ["src/main.py", "README.md"] }

/-- Success payload of an agent run: the union of the key/value fields the
agents put into AgentResult.data, each optional (a missing dict key is
none). -/
structure ResultData where
  summary : Option String := none
  output_path : Option String := none
  pages_processed : Option Nat := none
  project_id : Option String := none
  project_name : Option String := none
  project_path : Option String := none
  user_id : Option String := none
  description : Option String := none
  change_plan : Option String := none
  changes_applied : Option (List (String × String)) := none
  files_created : Option (List String) := none
  files_written : Option (List String) := none
  requirements : Option String := none
  structure_ : Option ProjectStructure := none
  tech_stack : Option (List String) := none
  features : Option (List String) := none
deriving DecidableEq, Repr

/-- AgentResult from agents/base.py. -/
structure AgentResult where
  success : Bool
  data : Option ResultData
  error : Option String := none
deriving DecidableEq, Repr

/-- Job from models/job.py (timestamps modelled as natural numbers). -/
structure Job where
  id : String
  job_type : JobType
  status : JobStatus := .pending
  raw_file_path : String := ""
  additional_text : String := ""
  project_id : Option String := none
  project_name : Option String := none
  output_path : Option String := none
  result : Option ResultData := none
  error : Option String := none
  created_at : Nat := 0
  started_at : Option Nat := none
  completed_at : Option Nat := none
deriving DecidableEq, Repr

/-! ## Trigger mode inference (triggers/base.py) -/

/-- TriggerMode from triggers/base.py. -/
inductive TriggerMode where
  | notes
  | create_project
  | existing_project
deriving DecidableEq, Repr

/-- The fixed mode lookup table of TriggerMode.from_path. -/
def mode_map (s : String) : Option TriggerMode :=
  if s = "notes" then some .notes
  else if s = "create_project" then some .create_project
  else if s = "existing_project" then some .existing_project
  else none

/-- TriggerMode.from_path (triggers/base.py lines 21-48): strip slashes,
split on slashes; fewer than two parts is an invalid structure; otherwise
the second part, lowercased with spaces replaced by underscores, is looked
up in mode_map, and an unknown folder is an error. -/
def TriggerMode.from_path (path : String) : Except String TriggerMode :=
  match pySplit "/" (pyStrip '/' path) with
  | _ :: p1 :: _ =>
    let mode_folder := pyReplaceAll (pyLower p1) " " "_"
    match mode_map mode_folder with
    | some m => .ok m
    | none => .error ("Unknown mode folder: " ++ p1)
  | _ => .error ("Invalid path structure: " ++ path)

/-! ## Markdown fence stripping (create_project.py lines 185-192) -/

/-- The fence-stripping step of CreateProjectAgent._generate_files: when
the content starts with a fence marker, drop the first line, and also the
last line when it is (after trimming) exactly a closing fence. -/
def stripFence (content : String) : String :=
  if pyStartsWith "```" content then
    let lines := pySplit "\n" content
    if pyTrim (lastD "" lines) = "```" then
      joinSep "\n" (lines.drop 1).dropLast
    else
      joinSep "\n" (lines.drop 1)
  else content

/-- A response string wrapped in a fence with matching opening and closing
markers: it starts with a fence marker, spans at least two lines, and its
last line is (after trimming) exactly a closing fence. -/
def wrappedInFence (s : String) : Prop :=
  pyStartsWith "```" s = true ∧
    2 ≤ (pySplit "\n" s).length ∧
    pyTrim (lastD "" (pySplit "\n" s)) = "```"

instance (s : String) : Decidable (wrappedInFence s) := by
  unfold wrappedInFence; infer_instance

/-! ## Agent pipelines

Collaborators (storage reads, rasterization, LLM completions, JSON
decoding) are oracles supplied through an environment structure; an
Except.error result models an exception raised at that call site, which
the agents' outermost try/except converts into a failed AgentResult. -/

/-- The failed AgentResult produced by the agents' except handlers:
AgentResult(success=False, data=None, error=str(e)). -/
def failResult (e : String) : AgentResult :=
  { success := false, data := none, error := some e }

/-- Python: additional = "\n\nAdditional context: ..." if job.additional_text else "". -/
def additionalContext (additional_text : String) : String :=
  if additional_text ≠ "" then "\n\nAdditional context: " ++ additional_text else ""

/-- The fixed summarize instruction template (summarize.py lines 60-68),
with the optional additional-context suffix spliced in. -/
def summarizeInstruction (additional : String) : String :=
  "Analyze these handwritten notes and provide a structured summary." ++ additional ++
    "\n\nProvide:\n1. **Main Points** - Key ideas and concepts\n2. **Details** - Important specifics, data, or examples\n3. **Action Items** - Tasks or next steps (if any)\n4. **Questions/Open Items** - Unresolved items or things to follow up on (if any)\n\nBe thorough but concise. Capture everything important."

/-- Collaborators of SummarizeAgent (and of its synchronous Lambda twin). -/
structure SummarizeEnv where
  fetch_file_by_path : Store → String → Except String String
  pdf_to_base64_images : String → Except String (List String)
  complete : List String → String → Except String String
  write_file : Store → String → String → String → Except String Store

/-- SummarizeAgent.run (agents/summarize.py lines 19-104): fetch the PDF,
rasterize, fail on zero pages, call the model once, derive the output path
by replacing the first "raw/" with "notes/" and swapping the extension to
".md", write the summary, and return the success payload.  Every oracle
error is converted into a failed AgentResult by the except handlers. -/
def SummarizeAgent.run (env : SummarizeEnv) (job : Job) (st : Store) : AgentResult × Store :=
  match env.fetch_file_by_path st job.raw_file_path with
  | .error e => (failResult e, st)
  | .ok pdf_bytes =>
    match env.pdf_to_base64_images pdf_bytes with
    | .error e => (failResult e, st)
    | .ok images =>
      if images.isEmpty then
        ({ success := false, data := none, error := some "PDF has no pages" }, st)
      else
        match env.complete images (summarizeInstruction (additionalContext job.additional_text)) with
        | .error e => (failResult e, st)
        | .ok summary =>
          let output_path := rsplitBase (replaceFirst job.raw_file_path "raw/" "notes/") ++ ".md"
          match env.write_file st output_path summary "text/markdown" with
          | .error e => (failResult e, st)
          | .ok st' =>
            ({ success := true
               data := some { summary := some summary
                              output_path := some output_path
                              pages_processed := some images.length }
               error := none }, st')

/-- SummarizeAgentSync.run_sync (lambda/processor.py lines 197-278): the
synchronous Lambda twin of SummarizeAgent.run.  Identical pipeline, but
the output path is derived as rsplit(".", 1)[0] + "_summary.md" on the raw
input path (no raw/ -> notes/ substitution). -/
def SummarizeAgentSync.run_sync (env : SummarizeEnv) (job : Job) (st : Store) :
    AgentResult × Store :=
  match env.fetch_file_by_path st job.raw_file_path with
  | .error e => (failResult e, st)
  | .ok pdf_bytes =>
    match env.pdf_to_base64_images pdf_bytes with
    | .error e => (failResult e, st)
    | .ok images =>
      if images.isEmpty then
        ({ success := false, data := none, error := some "PDF has no pages" }, st)
      else
        match env.complete images (summarizeInstruction (additionalContext job.additional_text)) with
        | .error e => (failResult e, st)
        | .ok summary =>
          let output_path := rsplitBase job.raw_file_path ++ "_summary.md"
          match env.write_file st output_path summary "text/markdown" with
          | .error e => (failResult e, st)
          | .ok st' =>
            ({ success := true
               data := some { summary := some summary
                              output_path := some output_path
                              pages_processed := some images.length }
               error := none }, st')

/-! ## Existing-project agent (infra .aws-sam build agents/existing_project.py) -/

/-- One entry of the generated-changes JSON: file_change.get("path", ""),
file_change.get("action", ""), file_change.get("content"). -/
structure FileChange where
  path : String := ""
  action : String := ""
  content : Option String := none
deriving DecidableEq, Repr

/-- The context dict built by ExistingProjectAgent._collect_context. -/
structure ProjectContext where
  project_id : String
  exists_ : Bool
  files : List String
  contents : List (String × String)
deriving DecidableEq, Repr

/-- Result of _generate_changes: the parsed files list, or the explicit
parse-failure fallback dict with an empty files list. -/
structure GenChanges where
  files : List FileChange
  parse_error : Bool := false
deriving DecidableEq, Repr

/-- Collaborators of ExistingProjectAgent. -/
structure ExistingEnv where
  fetch_file_by_path : Store → String → Except String String
  pdf_to_base64_images : String → Except String (List String)
  list_files : Store → String → Except String (List StorageFile)
  plan_complete : List String → String → Except String String
  generate_complete : String → String → Except String String
  json_loads_changes : String → Except String (List FileChange)
  write_file : Store → String → String → String → Except String Store

/-- The per-file reading loop of _collect_context (lines 106-116): read up
to the given files, skipping any with a truthy size over 50000 bytes, and
silently skipping files whose fetch raises. -/
def collectContents (env : ExistingEnv) (st : Store) : List StorageFile → List (String × String)
  | [] => []
  | f :: rest =>
    let tail := collectContents env st rest
    match f.size with
    | some sz =>
      if sz ≠ 0 ∧ 50000 < sz then tail
      else
        match env.fetch_file_by_path st f.path with
        | .ok c => (f.path, c) :: tail
        | .error _ => tail
    | none =>
      match env.fetch_file_by_path st f.path with
      | .ok c => (f.path, c) :: tail
      | .error _ => tail

/-- ExistingProjectAgent._collect_context (lines 88-123): list the files
under projects/{project_id}; a raised listing error degrades to an
explicit does-not-exist context instead of propagating; otherwise read the
contents of the first 20 files. -/
def ExistingProjectAgent.collect_context (env : ExistingEnv) (st : Store) (project_id : String) :
    ProjectContext :=
  let project_path := "projects/" ++ project_id
  match env.list_files st project_path with
  | .error _ =>
    { project_id := project_id, exists_ := false, files := [], contents := [] }
  | .ok files =>
    { project_id := project_id
      exists_ := true
      files := files.map (fun f => f.path)
      contents := collectContents env st (files.take 20) }

/-- The context summary rendered by _plan_changes (lines 140-151). -/
def contextSummary (context : ProjectContext) : String :=
  if context.exists_ then
    context.contents.foldl
      (fun acc pc =>
        let truncated := if 2000 < pc.2.length then pyTake pc.2 2000 ++ "..." else pc.2
        acc ++ "\n--- " ++ pc.1 ++ " ---\n" ++ truncated ++ "\n")
      ("Existing project files:\n" ++ joinSep "\n" context.files ++ "\n\nFile contents:\n")
  else "Project does not exist yet or has no files."

/-- The fenced-JSON extraction shared by _generate_changes
(existing_project.py lines 212-216) and _generate_structure
(create_project.py lines 140-144): prefer the segment after the first
JSON-tagged fence, fall back to the segment after the first untagged
fence, fall back to the raw text. -/
def extractFenced (response_text : String) : String :=
  if pyContainsSub "```json" response_text then
    (pySplit "```" ((pySplit "```json" response_text).getD 1 "")).headD ""
  else if pyContainsSub "```" response_text then
    (pySplit "```" ((pySplit "```" response_text).getD 1 "")).headD ""
  else response_text

/-- ExistingProjectAgent._generate_changes (lines 178-220): one completion
call given the plan and the existing file listing; the response is
de-fenced, trimmed and JSON-decoded; a decode failure returns the explicit
fallback with an empty files list instead of raising. -/
def ExistingProjectAgent.generate_changes (env : ExistingEnv) (change_plan : String)
    (context : ProjectContext) : Except String GenChanges :=
  match env.generate_complete change_plan (joinSep "\n" context.files) with
  | .error e => .error e
  | .ok response_text =>
    match env.json_loads_changes (pyTrim (extractFenced response_text)) with
    | .ok fs => .ok { files := fs }
    | .error _ => .ok { files := [], parse_error := true }

/-- Phase 3 of ExistingProjectAgent.run (lines 55-72): apply each change;
create/modify writes the content (an empty or missing content writes empty
bytes), delete entries are recorded as skipped, unknown actions are
ignored.  A write error carries the store at the failure point. -/
def applyChanges (env : ExistingEnv) (project_id : String) (st : Store) :
    List FileChange → Except (String × Store) (List (String × String) × Store)
  | [] => .ok ([], st)
  | fc :: rest =>
    let full_path := "projects/" ++ project_id ++ "/" ++ fc.path
    if fc.action = "create" ∨ fc.action = "modify" then
      match env.write_file st full_path (fc.content.getD "") "text/plain" with
      | .error e => .error (e, st)
      | .ok st' =>
        match applyChanges env project_id st' rest with
        | .error es => .error es
        | .ok (applied, st'') => .ok ((full_path, fc.action) :: applied, st'')
    else if fc.action = "delete" then
      match applyChanges env project_id st rest with
      | .error es => .error es
      | .ok (applied, st') => .ok ((full_path, "delete_skipped") :: applied, st')
    else
      match applyChanges env project_id st rest with
      | .error es => .error es
      | .ok (applied, st') => .ok (applied, st')

/-- ExistingProjectAgent.run (lines 21-86): require a truthy project_id,
fetch and rasterize the PDF, collect the project context, plan, generate
and apply the changes; every raised oracle error is converted into a
failed AgentResult by the except handlers. -/
def ExistingProjectAgent.run (env : ExistingEnv) (job : Job) (st : Store) :
    AgentResult × Store :=
  if job.project_id.getD "" = "" then
    ({ success := false, data := none
       error := some "project_id is required for existing project mode" }, st)
  else
    let pid := job.project_id.getD ""
    match env.fetch_file_by_path st job.raw_file_path with
    | .error e => (failResult e, st)
    | .ok pdf_bytes =>
      match env.pdf_to_base64_images pdf_bytes with
      | .error e => (failResult e, st)
      | .ok images =>
        if images.isEmpty then
          ({ success := false, data := none, error := some "PDF has no pages" }, st)
        else
          let project_context := ExistingProjectAgent.collect_context env st pid
          match env.plan_complete images
              (additionalContext job.additional_text ++ "\n\n" ++ contextSummary project_context) with
          | .error e => (failResult e, st)
          | .ok change_plan =>
            match ExistingProjectAgent.generate_changes env change_plan project_context with
            | .error e => (failResult e, st)
            | .ok changes =>
              match applyChanges env pid st changes.files with
              | .error (e, st') => (failResult e, st')
              | .ok (applied_changes, st') =>
                ({ success := true
                   data := some { project_id := some pid
                                  change_plan := some change_plan
                                  changes_applied := some applied_changes }
                   error := none }, st')

/-! ## Create-project agent (agents/create_project.py) -/

/-- Collaborators of CreateProjectAgent. -/
structure CreateEnv where
  fetch_file_by_path : Store → String → Except String String
  pdf_to_base64_images : String → Except String (List String)
  extract_complete : List String → String → Except String String
  structure_complete : String → Except String String
  json_loads_structure : String → Except String ProjectStructure
  file_complete : String → ProjectStructure → String → Except String String
  write_file : Store → String → String → String → Except String Store

/-- CreateProjectAgent._generate_structure (lines 114-154): one completion
call given the requirements; the response is de-fenced, trimmed and
JSON-decoded; a decode failure substitutes the fixed default skeleton
instead of raising. -/
def CreateProjectAgent.generate_structure (env : CreateEnv) (requirements : String) :
    Except String ProjectStructure :=
  match env.structure_complete requirements with
  | .error e => .error e
  | .ok response_text =>
    match env.json_loads_structure (pyTrim (extractFenced response_text)) with
    | .ok s => .ok s
    | .error _ => .ok defaultStructure

/-- The per-file loop of CreateProjectAgent._generate_files (lines
156-195): one completion call per file path, stripping one markdown fence
pair from each response. -/
def generateFilesGo (env : CreateEnv) (requirements : String) (struct : ProjectStructure) :
    List String → Except String (List (String × String))
  | [] => .ok []
  | fp :: rest =>
    match env.file_complete fp struct requirements with
    | .error e => .error e
    | .ok content =>
      match generateFilesGo env requirements struct rest with
      | .error e => .error e
      | .ok others => .ok ((fp, stripFence content) :: others)

/-- CreateProjectAgent._generate_files (lines 156-195). -/
def CreateProjectAgent.generate_files (env : CreateEnv) (requirements : String)
    (struct : ProjectStructure) : Except String (List (String × String)) :=
  generateFilesGo env requirements struct struct.files

/-- Phase 4 of CreateProjectAgent.run (lines 45-57): write every generated
file under the base path, collecting the written full paths.  A write
error carries the store at the failure point. -/
def writeFilesLoop (wf : Store → String → String → String → Except String Store)
    (base_path : String) (st : Store) :
    List (String × String) → Except (String × Store) (List String × Store)
  | [] => .ok ([], st)
  | (fp, content) :: rest =>
    let full_path := base_path ++ "/" ++ fp
    match wf st full_path content "text/plain" with
    | .error e => .error (e, st)
    | .ok st' =>
      match writeFilesLoop wf base_path st' rest with
      | .error es => .error es
      | .ok (written, st'') => .ok (full_path :: written, st'')

/-- CreateProjectAgent.run (lines 20-73): fetch and rasterize the PDF,
extract requirements, generate the structure (degrading to the default
skeleton on a parse failure), generate the files, and write them under
projects/{structure.name}; every raised oracle error is converted into a
failed AgentResult by the except handlers. -/
def CreateProjectAgent.run (env : CreateEnv) (job : Job) (st : Store) :
    AgentResult × Store :=
  match env.fetch_file_by_path st job.raw_file_path with
  | .error e => (failResult e, st)
  | .ok pdf_bytes =>
    match env.pdf_to_base64_images pdf_bytes with
    | .error e => (failResult e, st)
    | .ok images =>
      if images.isEmpty then
        ({ success := false, data := none, error := some "PDF has no pages" }, st)
      else
        match env.extract_complete images (additionalContext job.additional_text) with
        | .error e => (failResult e, st)
        | .ok requirements =>
          match CreateProjectAgent.generate_structure env requirements with
          | .error e => (failResult e, st)
          | .ok struct =>
            match CreateProjectAgent.generate_files env requirements struct with
            | .error e => (failResult e, st)
            | .ok files =>
              let project_name := struct.name
              let base_path := "projects/" ++ project_name
              match writeFilesLoop env.write_file base_path st files with
              | .error (e, st') => (failResult e, st')
              | .ok (written_files, st') =>
                ({ success := true
                   data := some { project_name := some project_name
                                  project_path := some base_path
                                  requirements := some requirements
                                  structure_ := some struct
                                  files_written := some written_files }
                   error := none }, st')

/-! ## Execute agent (lambda/processor.py lines 542-676) -/

/-- One entry of the execute response files list. -/
structure SpecFile where
  path : String := ""
  content : String := ""
deriving DecidableEq, Repr

/-- The JSON object the execute variant expects from the model. -/
structure ProjectSpec where
  description : String := ""
  tech_stack : List String := []
  features : List String := []
  files : List SpecFile := []
deriving DecidableEq, Repr

/-- Collaborators of ExecuteAgentSync.  stream returns the accumulated
streamed text together with the final stop reason; extract_json models the
DOTALL regex search for a JSON-tagged fenced block, returning the capture
when the pattern matches. -/
structure ExecEnv where
  fetch_file_by_path : Store → String → Except String String
  pdf_to_base64_images : String → Except String (List String)
  stream : List String → String → Except String (String × Option String)
  extract_json : String → Option String
  json_loads : String → Except String ProjectSpec
  write_file : Store → String → String → String → Except String Store

/-- Python x or d for an optional string (None and "" are falsy). -/
def pyOrD (o : Option String) (d : String) : String :=
  match o with
  | some s => if s = "" then d else s
  | none => d

/-- The file-writing loop of ExecuteAgentSync.run_sync (lines 643-656):
write each file with a truthy path and content under the project path,
collecting the created full paths. -/
def writeSpecFiles (wf : Store → String → String → String → Except String Store)
    (project_path : String) (st : Store) :
    List SpecFile → Except (String × Store) (List String × Store)
  | [] => .ok ([], st)
  | f :: rest =>
    if f.path ≠ "" ∧ f.content ≠ "" then
      let full_path := project_path ++ "/" ++ f.path
      match wf st full_path f.content "text/plain" with
      | .error e => .error (e, st)
      | .ok st' =>
        match writeSpecFiles wf project_path st' rest with
        | .error es => .error es
        | .ok (created, st'') => .ok (full_path :: created, st'')
    else
      writeSpecFiles wf project_path st rest

/-- ExecuteAgentSync.run_sync (lambda/processor.py lines 553-676): fetch
and rasterize, derive the user id and project path, run one large streamed
completion, extract and JSON-decode the response; a decode failure under
stop reason "max_tokens" raises the distinct truncation error, any other
decode failure re-raises the generic parse error; on success write the
files.  Every raised error is converted into a failed AgentResult by the
except handler. -/
def ExecuteAgentSync.run_sync (env : ExecEnv) (job : Job) (st : Store) :
    AgentResult × Store :=
  match env.fetch_file_by_path st job.raw_file_path with
  | .error e => (failResult e, st)
  | .ok pdf_bytes =>
    match env.pdf_to_base64_images pdf_bytes with
    | .error e => (failResult e, st)
    | .ok images =>
      if images.isEmpty then
        ({ success := false, data := none, error := some "PDF has no pages" }, st)
      else
        let path_parts := pySplit "/" job.raw_file_path
        let user_id := if 2 ≤ path_parts.length then path_parts.headD "unknown" else "unknown"
        let project_name := pyReplaceAll (pyOrD job.project_name "project") " " "_"
        let project_path := user_id ++ "/project_files/" ++ project_name
        match env.stream images project_name with
        | .error e => (failResult e, st)
        | .ok (response_text, stop_reason) =>
          let json_str := (env.extract_json response_text).getD response_text
          match env.json_loads json_str with
          | .error e =>
            if stop_reason = some "max_tokens" then
              (failResult
                ("Response truncated - increase max_tokens or simplify request. JSON error: " ++ e),
               st)
            else
              (failResult e, st)
          | .ok project_spec =>
            match writeSpecFiles env.write_file project_path st project_spec.files with
            | .error (e, st') => (failResult e, st')
            | .ok (files_created, st') =>
              ({ success := true
                 data := some { project_name := some project_name
                                project_path := some project_path
                                user_id := some user_id
                                description := some project_spec.description
                                files_created := some files_created
                                tech_stack := some project_spec.tech_stack
                                features := some project_spec.features }
                 error := none }, st')

/-! ## Job processing (lambda/processor.py lines 143-192) -/

/-- Python a or b where both operands are optional strings. -/
def pyOrOpt (a b : Option String) : Option String :=
  match a with
  | some s => if s = "" then b else some s
  | none => b

/-- process_job (lambda/processor.py lines 143-192; main.py lines 138-170
is the in-memory twin with the same update discipline): set the job to
processing with started_at, run the selected agent (modelled by the
runAgent oracle, which per the agents' no-throw contract returns an
AgentResult), then set the terminal state: on success status completed
with result and output_path, on failure status failed with the error; if
the success payload is missing (data None), the attribute access
result.data.get raises and the except handler marks the job failed.
completed_at is set after the terminal status.  The returned list is the
sequence of job states visible to the registry: the initial state and the
two update_job snapshots. -/
def process_job (runAgent : Job → AgentResult) (t1 t2 : Nat) (job0 : Job) : List Job :=
  let j1 := { job0 with status := JobStatus.processing, started_at := some t1 }
  let result := runAgent j1
  let j2 :=
    if result.success then
      match result.data with
      | some d =>
        { j1 with status := JobStatus.completed
                  result := some d
                  output_path := pyOrOpt d.output_path d.project_path }
      | none =>
        { j1 with status := JobStatus.failed
                  error := some "NoneType object has no attribute get" }
    else
      { j1 with status := JobStatus.failed, error := result.error }
  let j3 := { j2 with completed_at := some t2 }
  [job0, j1, j3]

/-! ## Job registry and status endpoint (storage/dynamodb.py, lambda/api_handler.py) -/

/-- The jobs table: each item is a job record together with its user_id
attribute. -/
abbrev Registry := List (Job × String)

/-- DynamoDBJobStore.get_job_with_user (storage/dynamodb.py lines 86-94):
get_item by job_id, returning the job and its stored user_id, or None. -/
def get_job_with_user (reg : Registry) (job_id : String) : Option (Job × String) :=
  reg.find? (fun e => e.1.id = job_id)

/-- A serialized API response body: either an error detail or the full job
record as returned by handle_get_job. -/
inductive ApiBody where
  | detail (msg : String)
  | jobRecord (job_id : String) (job_type : JobType) (status : JobStatus)
      (raw_file_path : String) (output_path : Option String) (result : Option ResultData)
      (error : Option String) (created_at : Nat) (completed_at : Option Nat)
deriving DecidableEq, Repr

/-- An API response: HTTP status code and body. -/
structure ApiResponse where
  statusCode : Nat
  body : ApiBody
deriving DecidableEq, Repr

/-- handle_get_job (lambda/api_handler.py lines 641-672): an empty job_id
is a 400; an unknown job_id is a 404; a job owned by a different user is a
403 whose body is the constant detail "Access denied" (none of the job's
fields appear); otherwise the full job record is returned with 200. -/
def handle_get_job (reg : Registry) (job_id user_id : String) : ApiResponse :=
  if job_id = "" then
    { statusCode := 400, body := .detail "job_id is required" }
  else
    match get_job_with_user reg job_id with
    | none => { statusCode := 404, body := .detail "Job not found" }
    | some (job, job_user_id) =>
      if job_user_id ≠ user_id then
        { statusCode := 403, body := .detail "Access denied" }
      else
        { statusCode := 200
          body := .jobRecord job.id job.job_type job.status job.raw_file_path
            job.output_path job.result job.error job.created_at job.completed_at }

/-! ## Concrete collaborator instances used in closed statements -/

/-- The always-succeeding overwrite-at-path write used by the S3-backed
pipelines (S3Storage.write_file never rejects a path). -/
def storeWrite : Store → String → String → String → Except String Store :=
  fun st p c _ => .ok (putAssoc st p c)

/-- A summarize collaborator instance: fetch reads the store (a missing
key raises FileNotFoundError), rasterization yields two pages, the model
returns a fixed summary, writes use the S3-like store write. -/
def summarizeSyncDemoEnv : SummarizeEnv :=
  { fetch_file_by_path := fun st p =>
      match getAssoc st p with
      | some c => .ok c
      | none => .error ("File not found: " ++ p)
    pdf_to_base64_images := fun _ => .ok ["page1", "page2"]
    complete := fun _ _ => .ok "SUMMARY"
    write_file := storeWrite }

/-- A summarize job on a document under the protected input root. -/
def summarizeSyncDemoJob : Job :=
  { id := "j1", job_type := .summarize, raw_file_path := "raw/Notes/x.pdf" }

/-- An existing-project collaborator instance whose listing is the real
S3 listing over the store (an empty prefix yields an empty list, not an
error) and whose generate-phase JSON decode fails. -/
def existingDemoEnv : ExistingEnv :=
  { fetch_file_by_path := fun _ _ => .ok "PDF"
    pdf_to_base64_images := fun _ => .ok ["page1"]
    list_files := fun st p => .ok (S3Storage.list_files ⟨"fiatlux-storage", ""⟩ st p)
    plan_complete := fun _ _ => .ok "PLAN"
    generate_complete := fun _ _ => .ok "no fenced json"
    json_loads_changes := fun _ => .error "Expecting value"
    write_file := storeWrite }

/-- The same collaborators with a listing that raises (a storage error
such as AccessDenied). -/
def existingErrEnv : ExistingEnv :=
  { fetch_file_by_path := fun _ _ => .ok "PDF"
    pdf_to_base64_images := fun _ => .ok ["page1"]
    list_files := fun _ _ => .error "AccessDenied"
    plan_complete := fun _ _ => .ok "PLAN"
    generate_complete := fun _ _ => .ok "no fenced json"
    json_loads_changes := fun _ => .error "Expecting value"
    write_file := storeWrite }

/-- A modify-existing-project job naming a project with no files. -/
def existingDemoJob : Job :=
  { id := "j2", job_type := .existing_project, raw_file_path := "raw/Existing_Project/x.pdf"
    project_id := some "myproj" }

/-- A completed job record stored under owner alice. -/
def demoJobRecord : Job :=
  { id := "job1", job_type := .execute, status := .completed
    raw_file_path := "alice/project_notes/x.pdf"
    output_path := some "alice/project_files/p1", created_at := 5 }

/-- A registry holding that one job. -/
def demoRegistry : Registry := [(demoJobRecord, "alice")]

/-! ## Theorems -/

/-- Helper: a find? over an association list is unchanged by first
filtering out the entries bound to a different key. -/
theorem find?_filter_ne (st : Store) (k q : String) (h : q ≠ k) :
    (st.filter (fun kv => kv.1 ≠ k)).find? (fun kv => kv.1 = q) =
      st.find? (fun kv => kv.1 = q) := by
  induction st with
  | nil => rfl
  | cons hd tl ih =>
    by_cases hk : hd.1 = k
    · rw [List.filter_cons_of_neg (by simp [hk]),
        List.find?_cons_of_neg _ (by simp only [decide_eq_true_eq]; rw [hk]; exact fun hq => h hq.symm),
        ih]
    · rw [List.filter_cons_of_pos (by simp [hk])]
      by_cases hq : hd.1 = q
      · rw [List.find?_cons_of_pos _ (by simp [hq]), List.find?_cons_of_pos _ (by simp [hq])]
      · rw [List.find?_cons_of_neg _ (by simp [hq]), List.find?_cons_of_neg _ (by simp [hq]), ih]

/-- Helper: looking up the key just written returns the written body. -/
theorem getAssoc_putAssoc_self (st : Store) (k v : String) :
    getAssoc (putAssoc st k v) k = some v := by
  simp [getAssoc, putAssoc, List.find?]

/-- Helper: writing one key leaves every other key unchanged. -/
theorem getAssoc_putAssoc_ne (st : Store) (k v q : String) (h : q ≠ k) :
    getAssoc (putAssoc st k v) q = getAssoc st q := by
  unfold getAssoc putAssoc
  rw [List.find?_cons_of_neg _ (by simp only [decide_eq_true_eq]; exact fun hkq => h hkq.symm),
    find?_filter_ne st k q h]

/-- C1: the spec and the storage base-class documentation require every
write-class operation except upload_to_raw to fail with
RawFolderWriteError on paths under the protected raw root, leaving
storage unchanged.  The code violates this: the path raw/doc.pdf is
rejected by the protected-path checker _assert_not_raw, yet
S3Storage.write_file performs the put with no check, mutating the store at
the protected key and returning a StorageFile, and S3Storage.delete_file
removes the protected object and returns True. -/
theorem s3_write_file_ignores_raw_protection :
    assert_not_raw "raw/doc.pdf" =
      .error (.rawFolderWrite "Cannot write to raw/ folder. It is read-only.") ∧
    S3Storage.write_file ⟨"fiatlux-storage", ""⟩ [] "raw/doc.pdf" "CONTENT" "application/pdf" =
      ([("raw/doc.pdf", "CONTENT")],
       { id := "raw/doc.pdf", name := "doc.pdf", path := "raw/doc.pdf",
         mime_type := some "application/pdf", size := some 7 }) ∧
    S3Storage.delete_file ⟨"fiatlux-storage", ""⟩ [("raw/doc.pdf", "CONTENT")] "raw/doc.pdf" =
      ([], true) :=
  ⟨by decide, by decide, by decide⟩

/-- C10: the protected-path check is a bare string-prefix test: every path
whose slash-stripped, lowercased form begins with the characters of
RAW_FOLDER is rejected by GDriveStorage.write_file with
RawFolderWriteError, regardless of the Drive-side behavior, even when the
path does not lie under the raw/ folder at all. -/
theorem gdrive_write_file_rejects_raw_string_prefixes
    (rest : String → String → String → Except StorageError StorageFile)
    (path content mime_type : String)
    (h : pyStartsWith RAW_FOLDER (pyLower (pyStrip '/' path)) = true) :
    GDriveStorage.write_file rest path content mime_type =
      .error (.rawFolderWrite "Cannot write to raw/ folder. It is read-only.") := by
  unfold GDriveStorage.write_file assert_not_raw
  simp only [h, if_true, Bool.true_eq, if_pos]
  decide

/-- Witness for C10: rawdata/file.txt is not under the raw/ folder (its
first segment is rawdata), yet the write is rejected; Raw_output/x
normalizes to a rejected form as well. -/
theorem gdrive_write_file_rejects_raw_string_prefixes_witness :
    firstSegment "rawdata/file.txt" ≠ "raw" ∧
    GDriveStorage.write_file
        (fun p _ m => .ok { id := "id1", name := rsplitLast "/" p, path := p, mime_type := some m })
        "rawdata/file.txt" "DATA" "text/plain" =
      .error (.rawFolderWrite "Cannot write to raw/ folder. It is read-only.") ∧
    pyStartsWith RAW_FOLDER (pyLower (pyStrip '/' "Raw_output/x")) = true :=
  ⟨by decide,
   gdrive_write_file_rejects_raw_string_prefixes _ _ _ _ (by decide),
   by decide⟩

/-- C8: trigger mode inference is a pure function of the path: with fewer
than two slash-separated segments (after stripping slashes) it fails with
the descriptive invalid-structure error; otherwise the second segment,
lowercased with spaces replaced by underscores, is looked up in the fixed
mode_map table, an unknown segment failing with the descriptive
unknown-mode error; there is no silent default. -/
theorem trigger_mode_from_path_characterization (path : String) :
    ((pySplit "/" (pyStrip '/' path)).length < 2 →
      TriggerMode.from_path path = .error ("Invalid path structure: " ++ path)) ∧
    (∀ p0 p1 rest, pySplit "/" (pyStrip '/' path) = p0 :: p1 :: rest →
      (∀ m, mode_map (pyReplaceAll (pyLower p1) " " "_") = some m →
        TriggerMode.from_path path = .ok m) ∧
      (mode_map (pyReplaceAll (pyLower p1) " " "_") = none →
        TriggerMode.from_path path = .error ("Unknown mode folder: " ++ p1))) := by
  constructor
  · intro hlen
    unfold TriggerMode.from_path
    rcases h : pySplit "/" (pyStrip '/' path) with _ | ⟨p0, _ | ⟨p1, rest⟩⟩
    · rfl
    · rfl
    · rw [h] at hlen; simp only [List.length_cons] at hlen
      exact absurd hlen (by omega)
  · intro p0 p1 rest hsplit
    constructor
    · intro m hm
      unfold TriggerMode.from_path
      rw [hsplit]
      simp only [hm]
    · intro hm
      unfold TriggerMode.from_path
      rw [hsplit]
      simp only [hm]

/-- Witness for C8: raw/Notes/x.pdf maps to the notes mode;
raw/Create Project/y.pdf normalizes its second segment to create_project;
raw/Unknown/z.pdf fails with the descriptive error; a path with a single
segment fails with the invalid-structure error. -/
theorem trigger_mode_from_path_characterization_witness :
    TriggerMode.from_path "raw/Notes/x.pdf" = .ok .notes ∧
    TriggerMode.from_path "raw/Create Project/y.pdf" = .ok .create_project ∧
    TriggerMode.from_path "raw/Unknown/z.pdf" = .error ("Unknown mode folder: Unknown") ∧
    TriggerMode.from_path "raw" = .error ("Invalid path structure: raw") :=
  ⟨((trigger_mode_from_path_characterization "raw/Notes/x.pdf").2 "raw" "Notes" ["x.pdf"]
      (by decide)).1 .notes (by decide),
   ((trigger_mode_from_path_characterization "raw/Create Project/y.pdf").2 "raw" "Create Project"
      ["y.pdf"] (by decide)).1 .create_project (by decide),
   ((trigger_mode_from_path_characterization "raw/Unknown/z.pdf").2 "raw" "Unknown" ["z.pdf"]
      (by decide)).2 (by decide),
   (trigger_mode_from_path_characterization "raw").1 (by decide)⟩

/-- Helper: stripping is the identity on content that does not start with
a fence marker. -/
theorem stripFence_id_of_unfenced (t : String) (h : pyStartsWith "```" t = false) :
    stripFence t = t := by
  unfold stripFence
  simp [h]

/-- C5 counterexample: the claim that stripping is idempotent on every
response wrapped in a fence with matching opening and closing markers is
false: the wrapped response whose inner content itself starts with a fence
marker strips differently the second time. -/
theorem stripFence_not_idempotent_counterexample :
    wrappedInFence "```\n```\nfoo\n```" ∧
    stripFence (stripFence "```\n```\nfoo\n```") ≠ stripFence "```\n```\nfoo\n```" :=
  ⟨by decide, by decide⟩

/-- C5 (amended): for a response wrapped in a fence with matching opening
and closing markers, stripping is idempotent provided the stripped content
does not itself start with a fence marker. -/
theorem stripFence_idempotent_on_wrapped (s : String)
    (hw : wrappedInFence s)
    (h : pyStartsWith "```" (stripFence s) = false) :
    stripFence (stripFence s) = stripFence s :=
  stripFence_id_of_unfenced (stripFence s) h

/-- Witness for C5 (amended) at a typical fenced model response. -/
theorem stripFence_idempotent_on_wrapped_witness :
    wrappedInFence "```python\nprint(1)\n```" ∧
    stripFence "```python\nprint(1)\n```" = "print(1)" ∧
    stripFence (stripFence "```python\nprint(1)\n```") = stripFence "```python\nprint(1)\n```" :=
  ⟨by decide, by decide,
   stripFence_idempotent_on_wrapped "```python\nprint(1)\n```" (by decide) (by decide)⟩

/-- C2: for every behavior of the storage and prompting collaborators
(every oracle outcome, including raised errors at any call site), each
pipeline variant's run returns an AgentResult (the functions are total),
and on every failure path the returned result has success false and a set
error message. -/
theorem pipeline_run_never_raises :
    (∀ (env : SummarizeEnv) (job : Job) (st : Store),
      (SummarizeAgent.run env job st).1.success = false →
        ((SummarizeAgent.run env job st).1.error).isSome = true) ∧
    (∀ (env : SummarizeEnv) (job : Job) (st : Store),
      (SummarizeAgentSync.run_sync env job st).1.success = false →
        ((SummarizeAgentSync.run_sync env job st).1.error).isSome = true) ∧
    (∀ (env : CreateEnv) (job : Job) (st : Store),
      (CreateProjectAgent.run env job st).1.success = false →
        ((CreateProjectAgent.run env job st).1.error).isSome = true) ∧
    (∀ (env : ExistingEnv) (job : Job) (st : Store),
      (ExistingProjectAgent.run env job st).1.success = false →
        ((ExistingProjectAgent.run env job st).1.error).isSome = true) ∧
    (∀ (env : ExecEnv) (job : Job) (st : Store),
      (ExecuteAgentSync.run_sync env job st).1.success = false →
        ((ExecuteAgentSync.run_sync env job st).1.error).isSome = true) := by
  refine ⟨?_, ?_, ?_, ?_, ?_⟩
  · intro env job st
    unfold SummarizeAgent.run
    cases hf : env.fetch_file_by_path st job.raw_file_path with
    | error e => simp [hf, failResult]
    | ok pdf =>
      simp only [hf]
      cases hr : env.pdf_to_base64_images pdf with
      | error e => simp [hr, failResult]
      | ok images =>
        simp only [hr]
        cases hne : images.isEmpty with
        | true => simp [hne]
        | false =>
          simp only [hne, Bool.false_eq_true, if_false]
          cases hc : env.complete images (summarizeInstruction (additionalContext job.additional_text)) with
          | error e => simp [hc, failResult]
          | ok summary =>
            simp only [hc]
            split <;> simp [failResult]
  · intro env job st
    unfold SummarizeAgentSync.run_sync
    cases hf : env.fetch_file_by_path st job.raw_file_path with
    | error e => simp [hf, failResult]
    | ok pdf =>
      simp only [hf]
      cases hr : env.pdf_to_base64_images pdf with
      | error e => simp [hr, failResult]
      | ok images =>
        simp only [hr]
        cases hne : images.isEmpty with
        | true => simp [hne]
        | false =>
          simp only [hne, Bool.false_eq_true, if_false]
          cases hc : env.complete images (summarizeInstruction (additionalContext job.additional_text)) with
          | error e => simp [hc, failResult]
          | ok summary =>
            simp only [hc]
            split <;> simp [failResult]
  · intro env job st
    unfold CreateProjectAgent.run
    cases hf : env.fetch_file_by_path st job.raw_file_path with
    | error e => simp [hf, failResult]
    | ok pdf =>
      simp only [hf]
      cases hr : env.pdf_to_base64_images pdf with
      | error e => simp [hr, failResult]
      | ok images =>
        simp only [hr]
        cases hne : images.isEmpty with
        | true => simp [hne]
        | false =>
          simp only [hne, Bool.false_eq_true, if_false]
          cases hx : env.extract_complete images (additionalContext job.additional_text) with
          | error e => simp [hx, failResult]
          | ok requirements =>
            simp only [hx]
            cases hg : CreateProjectAgent.generate_structure env requirements with
            | error e => simp [hg, failResult]
            | ok struct =>
              simp only [hg]
              cases hfs : CreateProjectAgent.generate_files env requirements struct with
              | error e => simp [hfs, failResult]
              | ok files =>
                simp only [hfs]
                cases hw : writeFilesLoop env.write_file ("projects/" ++ struct.name) st files with
                | error es =>
                  rcases es with ⟨e, st2⟩
                  simp [hw, failResult]
                | ok pr =>
                  rcases pr with ⟨written, st2⟩
                  simp [hw]
  · intro env job st
    unfold ExistingProjectAgent.run
    by_cases hp : job.project_id.getD "" = ""
    · simp [hp]
    · simp only [hp, if_false]
      cases hf : env.fetch_file_by_path st job.raw_file_path with
      | error e => simp [hf, failResult]
      | ok pdf =>
        simp only [hf]
        cases hr : env.pdf_to_base64_images pdf with
        | error e => simp [hr, failResult]
        | ok images =>
          simp only [hr]
          cases hne : images.isEmpty with
          | true => simp [hne]
          | false =>
            simp only [hne, Bool.false_eq_true, if_false]
            cases hpl : env.plan_complete images
                (additionalContext job.additional_text ++ "\n\n" ++
                  contextSummary (ExistingProjectAgent.collect_context env st (job.project_id.getD ""))) with
            | error e => simp [hpl, failResult]
            | ok change_plan =>
              simp only [hpl]
              cases hg : ExistingProjectAgent.generate_changes env change_plan
                  (ExistingProjectAgent.collect_context env st (job.project_id.getD "")) with
              | error e => simp [hg, failResult]
              | ok changes =>
                simp only [hg]
                cases ha : applyChanges env (job.project_id.getD "") st changes.files with
                | error es =>
                  rcases es with ⟨e, st2⟩
                  simp [ha, failResult]
                | ok pr =>
                  rcases pr with ⟨applied, st2⟩
                  simp [ha]
  · intro env job st
    unfold ExecuteAgentSync.run_sync
    cases hf : env.fetch_file_by_path st job.raw_file_path with
    | error e => simp [hf, failResult]
    | ok pdf =>
      simp only [hf]
      cases hr : env.pdf_to_base64_images pdf with
      | error e => simp [hr, failResult]
      | ok images =>
        simp only [hr]
        cases hne : images.isEmpty with
        | true => simp [hne]
        | false =>
          simp only [hne, Bool.false_eq_true, if_false]
          cases hs : env.stream images (pyReplaceAll (pyOrD job.project_name "project") " " "_") with
          | error e => simp [hs, failResult]
          | ok pr =>
            rcases pr with ⟨response_text, stop_reason⟩
            simp only [hs]
            cases hj : env.json_loads ((env.extract_json response_text).getD response_text) with
            | error e =>
              by_cases hmt : stop_reason = some "max_tokens" <;> simp [hj, hmt, failResult]
            | ok pspec =>
              simp only [hj]
              split <;> simp [failResult]

/-- Witness for C2: a summarize run whose storage fetch raises is a failed
result that carries the raised message. -/
theorem pipeline_run_never_raises_witness :
    ((SummarizeAgent.run
        { fetch_file_by_path := fun _ p => .error ("File not found: " ++ p)
          pdf_to_base64_images := fun _ => .ok ["page1"]
          complete := fun _ _ => .ok "SUMMARY"
          write_file := fun st p c _ => .ok (putAssoc st p c) }
        { id := "j1", job_type := .summarize, raw_file_path := "raw/Notes/x.pdf" }
        []).1.error).isSome = true :=
  pipeline_run_never_raises.1
    { fetch_file_by_path := fun _ p => .error ("File not found: " ++ p)
      pdf_to_base64_images := fun _ => .ok ["page1"]
      complete := fun _ _ => .ok "SUMMARY"
      write_file := fun st p c _ => .ok (putAssoc st p c) }
    { id := "j1", job_type := .summarize, raw_file_path := "raw/Notes/x.pdf" }
    [] (by decide)

/-- C3: during one execution of process_job on a pristine pending job, the
registry-visible status sequence is exactly pending, processing, then one
terminal status (completed or failed), never skipping back; started_at is
set exactly once, when the job enters processing; completed_at is set
exactly once, on the terminal state only; output_path and result are still
unset on the failed terminal state, and error is still unset on the
completed terminal state (which always carries a result payload). -/
theorem process_job_lifecycle (runAgent : Job → AgentResult) (t1 t2 : Nat) (job0 : Job)
    (hs : job0.status = .pending) (h1 : job0.started_at = none)
    (h2 : job0.completed_at = none) (h3 : job0.output_path = none)
    (h4 : job0.result = none) (h5 : job0.error = none) :
    ∃ j1 j2, process_job runAgent t1 t2 job0 = [job0, j1, j2] ∧
      job0.status = .pending ∧ job0.started_at = none ∧ job0.completed_at = none ∧
      j1.status = .processing ∧
      (j2.status = .completed ∨ j2.status = .failed) ∧
      j1.started_at = some t1 ∧ j2.started_at = some t1 ∧
      j1.completed_at = none ∧ j2.completed_at = some t2 ∧
      j1.output_path = none ∧ j1.result = none ∧ j1.error = none ∧
      (j2.status = .failed → j2.output_path = none ∧ j2.result = none) ∧
      (j2.status = .completed → j2.error = none ∧ (j2.result).isSome = true) := by
  unfold process_job
  cases hres : runAgent { job0 with status := JobStatus.processing, started_at := some t1 } with
  | mk succ data err =>
    simp only [hres]
    cases succ with
    | false =>
      refine ⟨_, _, rfl, ?_⟩
      simp_all
    | true =>
      cases data with
      | none =>
        refine ⟨_, _, rfl, ?_⟩
        simp_all
      | some d =>
        refine ⟨_, _, rfl, ?_⟩
        simp_all

/-- Witness for C3 at a concrete pending job and an agent returning a
successful result. -/
theorem process_job_lifecycle_witness :
    ∃ j1 j2,
      process_job
          (fun _ => { success := true, data := some { output_path := some "notes/x.md" } })
          10 20 { id := "j1", job_type := .summarize, raw_file_path := "raw/x.pdf" } =
        [{ id := "j1", job_type := .summarize, raw_file_path := "raw/x.pdf" }, j1, j2] ∧
      j1.status = .processing ∧ (j2.status = .completed ∨ j2.status = .failed) :=
  match process_job_lifecycle
      (fun _ => { success := true, data := some { output_path := some "notes/x.md" } })
      10 20 { id := "j1", job_type := .summarize, raw_file_path := "raw/x.pdf" }
      rfl rfl rfl rfl rfl rfl with
  | ⟨j1, j2, heq, _, _, _, hp, ht, _⟩ => ⟨j1, j2, heq, hp, ht⟩

/-- C4: in the infer-action (execute) variant, a streamed completion whose
stop reason is the length-limit marker "max_tokens" combined with a JSON
decode failure yields a failed result carrying the distinct truncation
message; a decode failure under any other stop reason yields a failed
result carrying exactly the generic decode error message. -/
theorem execute_truncation_error_distinct (env : ExecEnv) (job : Job) (st : Store)
    (pdf response_text : String) (images : List String)
    (stop_reason : Option String) (e : String)
    (hf : env.fetch_file_by_path st job.raw_file_path = .ok pdf)
    (hr : env.pdf_to_base64_images pdf = .ok images)
    (hne : images.isEmpty = false)
    (hs : env.stream images (pyReplaceAll (pyOrD job.project_name "project") " " "_") =
      .ok (response_text, stop_reason))
    (hj : env.json_loads ((env.extract_json response_text).getD response_text) = .error e) :
    (stop_reason = some "max_tokens" →
      (ExecuteAgentSync.run_sync env job st).1 =
        failResult
          ("Response truncated - increase max_tokens or simplify request. JSON error: " ++ e)) ∧
    (stop_reason ≠ some "max_tokens" →
      (ExecuteAgentSync.run_sync env job st).1 = failResult e) := by
  unfold ExecuteAgentSync.run_sync
  simp only [hf, hr, hne, Bool.false_eq_true, if_false, hs, hj]
  constructor
  · intro hmt
    simp [hmt]
  · intro hmt
    simp [hmt]

/-- Witness for C4: concrete environments exercising both the truncated
and the naturally-stopped decode-failure paths. -/
theorem execute_truncation_error_distinct_witness :
    (ExecuteAgentSync.run_sync
        { fetch_file_by_path := fun _ _ => .ok "PDF"
          pdf_to_base64_images := fun _ => .ok ["page1"]
          stream := fun _ _ => .ok ("not json", some "max_tokens")
          extract_json := fun _ => none
          json_loads := fun _ => .error "Expecting value"
          write_file := fun st p c _ => .ok (putAssoc st p c) }
        { id := "j1", job_type := .execute, raw_file_path := "u1/project_notes/x.pdf" }
        []).1 =
      failResult
        ("Response truncated - increase max_tokens or simplify request. JSON error: Expecting value") ∧
    (ExecuteAgentSync.run_sync
        { fetch_file_by_path := fun _ _ => .ok "PDF"
          pdf_to_base64_images := fun _ => .ok ["page1"]
          stream := fun _ _ => .ok ("not json", some "end_turn")
          extract_json := fun _ => none
          json_loads := fun _ => .error "Expecting value"
          write_file := fun st p c _ => .ok (putAssoc st p c) }
        { id := "j1", job_type := .execute, raw_file_path := "u1/project_notes/x.pdf" }
        []).1 =
      failResult "Expecting value" :=
  ⟨(execute_truncation_error_distinct _ _ [] "PDF" "not json" ["page1"] (some "max_tokens")
      "Expecting value" rfl rfl rfl rfl rfl).1 rfl,
   (execute_truncation_error_distinct _ _ [] "PDF" "not json" ["page1"] (some "end_turn")
      "Expecting value" rfl rfl rfl rfl rfl).2 (by decide)⟩

/-- C6 counterexample: the synchronous Lambda summarize variant
(SummarizeAgentSync.run_sync, cited by the claim) does not derive the
output path by replacing raw/ with notes/ and swapping the extension: for
the input raw/Notes/x.pdf the claimed derivation gives notes/Notes/x.md,
but the run writes the summary to raw/Notes/x_summary.md and nothing to
the claimed path. -/
theorem summarize_sync_output_path_counterexample :
    rsplitBase (replaceFirst summarizeSyncDemoJob.raw_file_path "raw/" "notes/") ++ ".md" =
      "notes/Notes/x.md" ∧
    (SummarizeAgentSync.run_sync summarizeSyncDemoEnv summarizeSyncDemoJob
        [("raw/Notes/x.pdf", "PDF")]).1 =
      { success := true
        data := some { summary := some "SUMMARY"
                       output_path := some "raw/Notes/x_summary.md"
                       pages_processed := some 2 }
        error := none } ∧
    getAssoc (SummarizeAgentSync.run_sync summarizeSyncDemoEnv summarizeSyncDemoJob
        [("raw/Notes/x.pdf", "PDF")]).2 "notes/Notes/x.md" = none ∧
    getAssoc (SummarizeAgentSync.run_sync summarizeSyncDemoEnv summarizeSyncDemoJob
        [("raw/Notes/x.pdf", "PDF")]).2 "raw/Notes/x_summary.md" = some "SUMMARY" :=
  ⟨by decide, by decide, by decide, by decide⟩

/-- C6 (amended): for every summarize job whose document rasterizes to at
least one page, the asynchronous SummarizeAgent writes the summary to
exactly the path obtained by replacing the first occurrence of raw/ with
notes/ and swapping the extension to .md, touching no other key, and its
success payload's pages_processed equals the number of page images; the
synchronous Lambda variant instead writes to the input path with the
extension replaced by _summary.md, with the same page count. -/
theorem summarize_output_path_derivation (env : SummarizeEnv) (job : Job) (st : Store)
    (pdf summary : String) (images : List String)
    (hw : env.write_file = storeWrite)
    (hf : env.fetch_file_by_path st job.raw_file_path = .ok pdf)
    (hr : env.pdf_to_base64_images pdf = .ok images)
    (hne : images.isEmpty = false)
    (hc : env.complete images (summarizeInstruction (additionalContext job.additional_text)) =
      .ok summary) :
    ((SummarizeAgent.run env job st).1 =
      { success := true
        data := some { summary := some summary
                       output_path := some (rsplitBase (replaceFirst job.raw_file_path "raw/" "notes/") ++ ".md")
                       pages_processed := some images.length }
        error := none } ∧
     getAssoc (SummarizeAgent.run env job st).2
        (rsplitBase (replaceFirst job.raw_file_path "raw/" "notes/") ++ ".md") = some summary ∧
     ∀ q, q ≠ rsplitBase (replaceFirst job.raw_file_path "raw/" "notes/") ++ ".md" →
       getAssoc (SummarizeAgent.run env job st).2 q = getAssoc st q) ∧
    ((SummarizeAgentSync.run_sync env job st).1 =
      { success := true
        data := some { summary := some summary
                       output_path := some (rsplitBase job.raw_file_path ++ "_summary.md")
                       pages_processed := some images.length }
        error := none } ∧
     getAssoc (SummarizeAgentSync.run_sync env job st).2
        (rsplitBase job.raw_file_path ++ "_summary.md") = some summary) := by
  unfold SummarizeAgent.run SummarizeAgentSync.run_sync
  simp only [hf, hr, hne, Bool.false_eq_true, if_false, hc, hw, storeWrite]
  refine ⟨⟨trivial, getAssoc_putAssoc_self _ _ _, fun q hq => getAssoc_putAssoc_ne _ _ _ _ hq⟩,
    trivial, getAssoc_putAssoc_self _ _ _⟩

/-- Witness for C6 (amended): the asynchronous agent on raw/Notes/x.pdf
writes the summary at notes/Notes/x.md and reports two pages. -/
theorem summarize_output_path_derivation_witness :
    (SummarizeAgent.run summarizeSyncDemoEnv summarizeSyncDemoJob
        [("raw/Notes/x.pdf", "PDF")]).1 =
      { success := true
        data := some { summary := some "SUMMARY"
                       output_path := some "notes/Notes/x.md"
                       pages_processed := some 2 }
        error := none } := by
  have h := (summarize_output_path_derivation summarizeSyncDemoEnv summarizeSyncDemoJob
      [("raw/Notes/x.pdf", "PDF")] "PDF" "SUMMARY" ["page1", "page2"]
      rfl (by decide) rfl rfl rfl).1.1
  rw [h]
  decide

/-- C7 counterexample: with the S3 backend cited by the claim, a non-empty
project reference under which no files exist does NOT produce an
exists=false context: S3Storage.list_files returns an empty list (not an
error) for the empty prefix, so the context has exists=true with an empty
file list; the pipeline still succeeds. -/
theorem existing_project_context_counterexample :
    ExistingProjectAgent.collect_context existingDemoEnv [] "myproj" =
      { project_id := "myproj", exists_ := true, files := [], contents := [] } ∧
    (ExistingProjectAgent.collect_context existingDemoEnv [] "myproj").exists_ ≠ false ∧
    (ExistingProjectAgent.run existingDemoEnv existingDemoJob []).1.success = true :=
  ⟨by decide, by decide, by decide⟩

/-- C7 (amended): in the modify-existing-project variant with a non-empty
project reference, a context-collection listing that raises degrades to
an explicit exists=false context (empty file list, no contents) instead of
propagating the storage error, and the pipeline still returns a successful
result; a listing that returns no files (as S3 does for a missing project
prefix) yields an exists=true context with an empty file list, and the
pipeline likewise still succeeds. -/
theorem existing_project_missing_context_degrades (env : ExistingEnv) (job : Job) (st : Store)
    (pid pdf plan resp perr : String) (images : List String)
    (hpid : job.project_id = some pid) (hpne : pid ≠ "")
    (hf : env.fetch_file_by_path st job.raw_file_path = .ok pdf)
    (hr : env.pdf_to_base64_images pdf = .ok images)
    (hne : images.isEmpty = false)
    (hplan : ∀ ctx, env.plan_complete images ctx = .ok plan)
    (hgen : ∀ fl, env.generate_complete plan fl = .ok resp)
    (hjson : env.json_loads_changes (pyTrim (extractFenced resp)) = .error perr) :
    (∀ err, env.list_files st ("projects/" ++ pid) = .error err →
      ExistingProjectAgent.collect_context env st pid =
        { project_id := pid, exists_ := false, files := [], contents := [] } ∧
      (ExistingProjectAgent.run env job st).1 =
        { success := true
          data := some { project_id := some pid, change_plan := some plan
                         changes_applied := some [] }
          error := none }) ∧
    (env.list_files st ("projects/" ++ pid) = .ok [] →
      ExistingProjectAgent.collect_context env st pid =
        { project_id := pid, exists_ := true, files := [], contents := [] } ∧
      (ExistingProjectAgent.run env job st).1 =
        { success := true
          data := some { project_id := some pid, change_plan := some plan
                         changes_applied := some [] }
          error := none }) := by
  constructor
  · intro err hlist
    have hcc : ExistingProjectAgent.collect_context env st pid =
        { project_id := pid, exists_ := false, files := [], contents := [] } := by
      simp only [ExistingProjectAgent.collect_context, hlist]
    refine ⟨hcc, ?_⟩
    unfold ExistingProjectAgent.run ExistingProjectAgent.generate_changes
    simp only [hpid, Option.getD_some, hpne, if_false, hf, hr, hne, Bool.false_eq_true,
      hcc, hplan, hgen, hjson, applyChanges]
  · intro hlist
    have hcc : ExistingProjectAgent.collect_context env st pid =
        { project_id := pid, exists_ := true, files := [], contents := [] } := by
      simp only [ExistingProjectAgent.collect_context, hlist]
      rfl
    refine ⟨hcc, ?_⟩
    unfold ExistingProjectAgent.run ExistingProjectAgent.generate_changes
    simp only [hpid, Option.getD_some, hpne, if_false, hf, hr, hne, Bool.false_eq_true,
      hcc, hplan, hgen, hjson, applyChanges]

/-- Witness for C7 (amended): with a listing that raises AccessDenied the
context is the explicit does-not-exist context and the run succeeds. -/
theorem existing_project_missing_context_degrades_witness :
    ExistingProjectAgent.collect_context existingErrEnv [] "myproj" =
      { project_id := "myproj", exists_ := false, files := [], contents := [] } ∧
    (ExistingProjectAgent.run existingErrEnv existingDemoJob []).1 =
      { success := true
        data := some { project_id := some "myproj", change_plan := some "PLAN"
                       changes_applied := some [] }
        error := none } :=
  (existing_project_missing_context_degrades existingErrEnv existingDemoJob [] "myproj" "PDF"
      "PLAN" "no fenced json" "Expecting value" ["page1"]
      rfl (by decide) rfl rfl rfl (fun _ => rfl) (fun _ => rfl) rfl).1 "AccessDenied" rfl

/-- C9: the job-status endpoint run against the registry: a job stored
under one owner and queried by a different requester yields the forbidden
outcome 403 whose body is the constant detail string, carrying none of the
job's fields; the full job record is returned (200) exactly when the
requester equals the stored owner; an unknown (non-empty) job id yields
the not-found outcome 404. -/
theorem get_job_ownership_isolation (reg : Registry) (job_id user_id : String) :
    (∀ job owner, job_id ≠ "" → get_job_with_user reg job_id = some (job, owner) →
      owner ≠ user_id →
      handle_get_job reg job_id user_id =
        { statusCode := 403, body := .detail "Access denied" }) ∧
    (∀ job owner, job_id ≠ "" → get_job_with_user reg job_id = some (job, owner) →
      owner = user_id →
      handle_get_job reg job_id user_id =
        { statusCode := 200
          body := .jobRecord job.id job.job_type job.status job.raw_file_path job.output_path
            job.result job.error job.created_at job.completed_at }) ∧
    (job_id ≠ "" → get_job_with_user reg job_id = none →
      handle_get_job reg job_id user_id =
        { statusCode := 404, body := .detail "Job not found" }) := by
  refine ⟨?_, ?_, ?_⟩
  · intro job owner hid hget howner
    unfold handle_get_job
    simp only [hid, if_false, hget]
    simp [howner]
  · intro job owner hid hget howner
    unfold handle_get_job
    simp only [hid, if_false, hget]
    simp [howner]
  · intro hid hget
    unfold handle_get_job
    simp only [hid, if_false, hget]

/-- Witness for C9 on a one-job registry owned by alice: bob gets the
constant 403 body, alice gets the full record, and an unknown id is a
404. -/
theorem get_job_ownership_isolation_witness :
    handle_get_job demoRegistry "job1" "bob" =
      { statusCode := 403, body := .detail "Access denied" } ∧
    handle_get_job demoRegistry "job1" "alice" =
      { statusCode := 200
        body := .jobRecord "job1" .execute .completed "alice/project_notes/x.pdf"
          (some "alice/project_files/p1") none none 5 none } ∧
    handle_get_job demoRegistry "unknown" "alice" =
      { statusCode := 404, body := .detail "Job not found" } :=
  ⟨(get_job_ownership_isolation demoRegistry "job1" "bob").1 demoJobRecord "alice"
      (by decide) (by decide) (by decide),
   (get_job_ownership_isolation demoRegistry "job1" "alice").2.1 demoJobRecord "alice"
      (by decide) (by decide) rfl,
   (get_job_ownership_isolation demoRegistry "unknown" "alice").2.2 (by decide) (by decide)⟩

end FiatLux
